import Mathlib

/-!
# identity-platform-login-ui: the flow handlers of `main.go`

A shallow embedding of the request handlers of `main.go` and of the helpers
they use, followed by the properties of the specification that concern them.

Conventions of the embedding.

* A Go `string` is a Lean `String`; a Go `int` is an `Int`.
* The two upstream services are reached through generated clients. A client
  call `Execute()` returns a Go triple `(value, *http.Response, error)`; it is
  embedded as a `Result`, which is either `ok value resp` (the error is nil and
  the response is there) or `error err resp` with an optional response (the
  response pointer is nil when no HTTP exchange took place).
* The behaviour of the remote services is a parameter: a record of functions
  from the arguments of a call to its `Result`.
* A value returned by a client call is a Go pointer: it is `none` when the
  pointer is nil, which a client returns, with a nil error, for a response
  whose JSON body is `null`.
* A handler run is a `Run`: the upstream calls issued, in order, the state of
  the `http.ResponseWriter` afterwards, and whether the handler returned or
  stopped in a runtime panic (a nil pointer dereference, or a status code that
  `WriteHeader` refuses).
* `log.Printf` and `log.Println` have no effect on the calls, on the response
  or on the control flow and are left out.
-/

namespace LoginUI

/-! ## net/http data -/

/-- The type `http.Cookie`, with the two fields the program reads. -/
structure Cookie where
  Name : String
  Value : String
deriving DecidableEq, Repr

/-- The types `http.Header` and `url.Values`: a Go `map[string][]string`, kept
as an association list with distinct keys. A `range` loop visits the entries in
the order of the list. -/
abbrev Header := List (String × List String)

/-- The map read `h[key]`: the values stored under `key`, the nil slice when
the key is absent. -/
def Header.Values (h : Header) (key : String) : List String :=
  match h.find? (fun e => e.1 == key) with
  | some e => e.2
  | none => []

/-- The method `url.Values.Get`: the first value stored under `key`, the empty
string when there is none. -/
def Header.Get (h : Header) (key : String) : String :=
  match h.Values key with
  | [] => ""
  | v :: _ => v

/-- The map write `h[key] = vs`: replaces the entry of `key` when there is one,
adds an entry otherwise. -/
def Header.assign : Header → String → List String → Header
  | [], key, vs => [(key, vs)]
  | e :: rest, key, vs =>
    if e.1 = key then (key, vs) :: rest else e :: Header.assign rest key vs

/-- The method `http.Header.Set`: `h[CanonicalMIMEHeaderKey(key)] = []string{value}`.
The standard library's key canonicalisation is the parameter `canon`. -/
def Header.Set (canon : String → String) (h : Header) (key value : String) : Header :=
  h.assign (canon key) [value]

/-- The type `http.Response` of an upstream response. `Body` is the content
that `ioutil.ReadAll(r.Body)` reads: the generated clients read the upstream
body and put an in-memory buffer in its place before they return, so the read
in `writeResponse` yields this content and no error. -/
structure Response where
  Header : Header
  StatusCode : Int
  Body : String
deriving DecidableEq, Repr

/-- The inbound `http.Request`: `Query` is `r.URL.Query()`, `Cookies` is
`r.Cookies()`, `Body` is the content of `r.Body`. -/
structure Request where
  Query : Header
  Cookies : List Cookie
  Body : String
deriving DecidableEq, Repr

/-- The method `r.Cookie(name)`: the first cookie of the request with that
name, nil when there is none. -/
def Request.Cookie (r : Request) (name : String) : Option Cookie :=
  r.Cookies.find? (fun c => c.Name == name)

/-- The `http.ResponseWriter`, as a recorder: the header map `w.Header()`, the
status code once `WriteHeader` was called (`none` before), and the bytes
written so far. -/
structure ResponseWriter where
  Header : Header
  Code : Option Int
  Body : String
deriving DecidableEq, Repr

/-- A writer nothing was written to: no header, no status, no body. -/
def ResponseWriter.fresh : ResponseWriter := ⟨[], none, ""⟩

/-- The method `w.WriteHeader(code)`. A call after the status was fixed does
nothing. Otherwise a code below 100 or above 999 makes the call panic (`none`),
and any other code becomes the status. -/
def ResponseWriter.WriteHeader (w : ResponseWriter) (code : Int) : Option ResponseWriter :=
  match w.Code with
  | some _ => some w
  | none => if code < 100 ∨ code > 999 then none else some { w with Code := some code }

/-- The method `w.Write(b)`: fixes the status 200 first when no status was
written, then appends the bytes. -/
def ResponseWriter.Write (w : ResponseWriter) (b : String) : ResponseWriter :=
  match w.Code with
  | some _ => { w with Body := w.Body ++ b }
  | none => { w with Code := some 200, Body := w.Body ++ b }

/-! ## Client library data -/

/-- The triple `(value, *http.Response, error)` a generated client returns.
With a nil error (`ok`) the response is there and the value pointer is the
decoded body, nil (`none`) for the body `null`. With an error the value is not
read and the response pointer may be nil. -/
inductive Result (α : Type) where
  | ok (value : Option α) (resp : Response)
  | error (err : String) (resp : Option Response)

/-- The `*http.Response` of a result, nil (`none`) when there is none. -/
def Result.resp {α : Type} : Result α → Option Response
  | .ok _ resp => some resp
  | .error _ resp => resp

/-- The `error` of a result, nil (`none`) on success. -/
def Result.err {α : Type} : Result α → Option String
  | .ok _ _ => none
  | .error err _ => some err

/-- The type `kratos_client.Identity`; the traits are only logged. -/
structure Identity where
  Id : String
deriving DecidableEq, Repr

/-- The type `kratos_client.Session`. -/
structure Session where
  Identity : Identity
deriving DecidableEq, Repr

/-- The type `kratos_client.UpdateLoginFlowWithOidcMethod`, the decoded request
body of the login update. -/
structure UpdateLoginFlowWithOidcMethod where
  Method : String
  Provider : String
deriving DecidableEq, Repr

/-- The type `hydra_client.AcceptLoginRequest`; the handler sets its subject
only. -/
structure AcceptLoginRequest where
  Subject : String
deriving DecidableEq, Repr

/-- The constructor `hydra_client.NewAcceptLoginRequest(subject)`. -/
def NewAcceptLoginRequest (subject : String) : AcceptLoginRequest := ⟨subject⟩

/-- The type `hydra_client.ConsentRequest`, with the fields the handler reads. -/
structure ConsentRequest where
  RequestedScope : List String
  RequestedAccessTokenAudience : List String
deriving DecidableEq, Repr

/-- The type `hydra_client.AcceptConsentRequest`, with the fields the handler
sets. -/
structure AcceptConsentRequest where
  GrantScope : List String
  GrantAccessTokenAudience : List String
deriving DecidableEq, Repr

/-- The constructor `hydra_client.NewAcceptConsentRequest()`: nothing granted. -/
def NewAcceptConsentRequest : AcceptConsentRequest := ⟨[], []⟩

/-- The setter `SetGrantScope`. -/
def AcceptConsentRequest.SetGrantScope (o : AcceptConsentRequest) (v : List String) :
    AcceptConsentRequest :=
  { o with GrantScope := v }

/-- The setter `SetGrantAccessTokenAudience`. -/
def AcceptConsentRequest.SetGrantAccessTokenAudience (o : AcceptConsentRequest)
    (v : List String) : AcceptConsentRequest :=
  { o with GrantAccessTokenAudience := v }

/-- The type `hydra_client.CompletedRequest`, the value of an accepted login or
consent. -/
structure CompletedRequest where
  RedirectTo : String
deriving DecidableEq, Repr

/-- The method `CompletedRequest.MarshalJSON`: `json.Marshal` of the map with
the one entry `redirect_to`. Such a map always marshals, so the error is nil;
the bytes `json.Marshal` produces are given by the parameter `encode`. -/
def CompletedRequest.MarshalJSON (encode : CompletedRequest → String) (o : CompletedRequest) :
    Except String String :=
  .ok (encode o)

/-- The Identity Service behind `kratos.FrontendApi`: each field gives the
result of `Execute()` for the arguments set on the request builder. -/
structure KratosClient where
  ToSession : (cookie : String) → Result Session
  CreateBrowserLoginFlow :
    (aal returnTo loginChallenge : String) → (refresh : Bool) → (cookie : String) → Result Unit
  UpdateLoginFlow :
    (flow : String) → (body : UpdateLoginFlowWithOidcMethod) → (cookie : String) → Result Unit

/-- The Authorization Service behind `hydra.AdminApi`: each field gives the
result of `Execute()` for the arguments set on the request builder. -/
structure HydraClient where
  AcceptLoginRequest : (loginChallenge : String) → (body : AcceptLoginRequest) → Result Unit
  GetConsentRequest : (consentChallenge : String) → Result ConsentRequest
  AcceptConsentRequest :
    (consentChallenge : String) → (body : AcceptConsentRequest) → Result CompletedRequest

/-- One upstream call, with the arguments it was issued with. -/
inductive Call where
  | ToSession (cookie : String)
  | CreateBrowserLoginFlow (aal returnTo loginChallenge : String) (refresh : Bool)
      (cookie : String)
  | UpdateLoginFlow (flow : String) (body : UpdateLoginFlowWithOidcMethod) (cookie : String)
  | AcceptLoginRequest (loginChallenge : String) (body : AcceptLoginRequest)
  | GetConsentRequest (consentChallenge : String)
  | AcceptConsentRequest (consentChallenge : String) (body : AcceptConsentRequest)
deriving DecidableEq, Repr

/-- How a handler run ended: by `return`, or in a runtime panic. -/
inductive Exit where
  | returned
  | panicked
deriving DecidableEq, Repr

/-- A handler run: the upstream calls in the order they were issued, the
response writer afterwards, and how the run ended. -/
structure Run where
  calls : List Call
  w : ResponseWriter
  exit : Exit
deriving DecidableEq, Repr

/-! ## Helpers of `main.go` -/

/-- The call `fmt.Sprintf("%s=%s", name, value)`. -/
def Sprintf (name value : String) : String := name ++ "=" ++ value

/-- The function `strings.Join`: the empty string for no element, the element
itself for one, otherwise the first element followed, for each further element,
by the separator and the element. -/
def Join (elems : List String) (sep : String) : String :=
  match elems with
  | [] => ""
  | [e] => e
  | e :: rest => rest.foldl (fun b s => b ++ sep ++ s) e

/-- The function `cookiesToString`: a slice of `len(cookies)` strings is filled
index by index with `name=value` and joined with `"; "`. -/
def cookiesToString (cookies : List Cookie) : String :=
  let ret : List String := List.replicate cookies.length ""
  let ret := cookies.enum.foldl (fun ret ic => ret.set ic.1 (Sprintf ic.2.Name ic.2.Value)) ret
  Join ret "; "

/-- The function `writeResponse`: for every header key and every value of it,
`w.Header().Set(k, v)`; then `w.WriteHeader(r.StatusCode)`; then the body is
read and printed to `w`. The result is the writer afterwards and how the
function ended: when `WriteHeader` panics the headers are set and nothing else
is written. -/
def writeResponse (canon : String → String) (w : ResponseWriter) (r : Response) :
    ResponseWriter × Exit :=
  let hdr := r.Header.foldl
    (fun h kvs => kvs.2.foldl (fun h v => Header.Set canon h kvs.1 v) h) w.Header
  let w1 : ResponseWriter := { w with Header := hdr }
  match w1.WriteHeader r.StatusCode with
  | none => (w1, .panicked)
  | some w2 => (w2.Write r.Body, .returned)

/-- The type `strconv.NumError`: the failing function, its input, and the
reason. -/
structure NumError where
  Func : String
  Num : String
  Err : String
deriving DecidableEq, Repr

/-- The function `strconv.ParseBool`: the value and the error (nil, `none`, on
success). -/
def ParseBool (str : String) : Bool × Option NumError :=
  if str = "1" ∨ str = "t" ∨ str = "T" ∨ str = "true" ∨ str = "TRUE" ∨ str = "True" then
    (true, none)
  else if str = "0" ∨ str = "f" ∨ str = "F" ∨ str = "false" ∨ str = "FALSE" ∨ str = "False" then
    (false, none)
  else
    (false, some ⟨"ParseBool", str, "invalid syntax"⟩)

/-- The function `parseBody`: decodes the request body into `body`; a decoding
error is logged and the body, as far as it was filled, is used all the same.
The JSON decoder is the parameter `decode`. -/
def parseBody (decode : String → UpdateLoginFlowWithOidcMethod) (r : Request) :
    UpdateLoginFlowWithOidcMethod :=
  decode r.Body

/-! ## The error translation -/

/-- The type `ErrorMessage`. -/
structure ErrorMessage where
  Code : Int
  Status : String
  Reason : String
  Message : String
deriving DecidableEq, Repr

/-- The type `SelfserviceError`. -/
structure SelfserviceError where
  Id : String
  ServerError : ErrorMessage
  Created_at : String
  Updated_at : String
deriving DecidableEq, Repr

/-- The type `SelfserviceErrorProxy`. -/
structure SelfserviceErrorProxy where
  Id : String
  Reason : String
  Message : String
deriving DecidableEq, Repr

/-- The function `newSelfserviceErrorProxy`. -/
def newSelfserviceErrorProxy (s : SelfserviceError) : SelfserviceErrorProxy :=
  { Id := s.Id, Reason := s.ServerError.Reason, Message := s.ServerError.Message }

/-! ## The handlers -/

/-- The handler `handleCreateFlow`. On the session path `session.Identity.Id`
reads through the session pointer. -/
def handleCreateFlow (canon : String → String) (kratos : KratosClient) (hydra : HydraClient)
    (w : ResponseWriter) (r : Request) : Run :=
  let q := r.Query
  match r.Cookie "ory_kratos_session" with
  | some _ =>
    let cookie := cookiesToString r.Cookies
    match kratos.ToSession cookie with
    | .error _ _ => ⟨[.ToSession cookie], w, .returned⟩
    | .ok none _ => ⟨[.ToSession cookie], w, .panicked⟩
    | .ok (some session) _ =>
      let accept := NewAcceptLoginRequest session.Identity.Id
      let challenge := q.Get "login_challenge"
      let calls := [Call.ToSession cookie, Call.AcceptLoginRequest challenge accept]
      match hydra.AcceptLoginRequest challenge accept with
      | .error _ _ => ⟨calls, w, .returned⟩
      | .ok _ resp => ⟨calls, (writeResponse canon w resp).1, (writeResponse canon w resp).2⟩
  | none =>
    let parsed := ParseBool (q.Get "refresh")
    let refresh := if parsed.2 = none then false else parsed.1
    let aal := q.Get "aal"
    let returnTo := q.Get "return_to"
    let challenge := q.Get "login_challenge"
    let cookie := cookiesToString r.Cookies
    let calls := [Call.CreateBrowserLoginFlow aal returnTo challenge refresh cookie]
    match kratos.CreateBrowserLoginFlow aal returnTo challenge refresh cookie with
    | .error _ _ => ⟨calls, w, .returned⟩
    | .ok _ resp => ⟨calls, (writeResponse canon w resp).1, (writeResponse canon w resp).2⟩

/-- The handler `handleUpdateFlow`. The test `e != nil && resp.StatusCode != 422`
reads `resp.StatusCode` whenever `e` is not nil, and `resp` is a pointer. -/
def handleUpdateFlow (canon : String → String) (decode : String → UpdateLoginFlowWithOidcMethod)
    (kratos : KratosClient) (w : ResponseWriter) (r : Request) : Run :=
  let q := r.Query
  let body := parseBody decode r
  let flow := q.Get "flow"
  let cookie := cookiesToString r.Cookies
  let calls := [Call.UpdateLoginFlow flow body cookie]
  match kratos.UpdateLoginFlow flow body cookie with
  | .ok _ resp => ⟨calls, (writeResponse canon w resp).1, (writeResponse canon w resp).2⟩
  | .error _ none => ⟨calls, w, .panicked⟩
  | .error _ (some resp) =>
    if resp.StatusCode ≠ 422 then ⟨calls, w, .returned⟩
    else ⟨calls, (writeResponse canon w resp).1, (writeResponse canon w resp).2⟩

/-- The handler `handleConsent`. It reads through the session pointer
(`session.Identity.Traits`), through the consent pointer
(`consent.RequestedScope`) and through the accepted value
(`accept.MarshalJSON()`, a method with a value receiver); `encode` gives the
bytes of `MarshalJSON`. -/
def handleConsent (encode : CompletedRequest → String) (kratos : KratosClient)
    (hydra : HydraClient) (w : ResponseWriter) (r : Request) : Run :=
  let q := r.Query
  let cookie := cookiesToString r.Cookies
  match kratos.ToSession cookie with
  | .error _ _ => ⟨[.ToSession cookie], w, .returned⟩
  | .ok none _ => ⟨[.ToSession cookie], w, .panicked⟩
  | .ok (some _) _ =>
    let challenge := q.Get "consent_challenge"
    match hydra.GetConsentRequest challenge with
    | .error _ _ => ⟨[.ToSession cookie, .GetConsentRequest challenge], w, .returned⟩
    | .ok none _ => ⟨[.ToSession cookie, .GetConsentRequest challenge], w, .panicked⟩
    | .ok (some consent) _ =>
      let accept_consent_req := NewAcceptConsentRequest
      let accept_consent_req := accept_consent_req.SetGrantScope consent.RequestedScope
      let accept_consent_req :=
        accept_consent_req.SetGrantAccessTokenAudience consent.RequestedAccessTokenAudience
      let calls := [Call.ToSession cookie, Call.GetConsentRequest challenge,
        Call.AcceptConsentRequest challenge accept_consent_req]
      match hydra.AcceptConsentRequest challenge accept_consent_req with
      | .error _ _ => ⟨calls, w, .returned⟩
      | .ok none _ => ⟨calls, w, .panicked⟩
      | .ok (some accept) _ =>
        match accept.MarshalJSON encode with
        | .error _ => ⟨calls, w, .returned⟩
        | .ok resp =>
          match w.WriteHeader 200 with
          | none => ⟨calls, w, .panicked⟩
          | some w1 => ⟨calls, w1.Write resp, .returned⟩

/-! ## Notions of the specification -/

/-- The item `name=value` of one cookie, as the specification words it. -/
def cookieItem (c : Cookie) : String := c.Name ++ "=" ++ c.Value

/-- A flow-creation call. -/
def Call.isCreateBrowserLoginFlow : Call → Bool
  | .CreateBrowserLoginFlow _ _ _ _ _ => true
  | _ => false

/-- A login-acceptance call. -/
def Call.isAcceptLoginRequest : Call → Bool
  | .AcceptLoginRequest _ _ => true
  | _ => false

/-- An Identity Service that knows the session, creates flows, and answers a
login update with status 422 and an error. -/
def kratosSample : KratosClient where
  ToSession := fun _ => .ok (some ⟨⟨"user-1"⟩⟩) ⟨[], 200, "session"⟩
  CreateBrowserLoginFlow := fun _ _ _ _ _ =>
    .ok (some ()) ⟨[("Content-Type", ["application/json"])], 200, "flow"⟩
  UpdateLoginFlow := fun _ _ _ =>
    .error "422 Unprocessable Entity" (some ⟨[], 422, "validation"⟩)

/-- An Identity Service that cannot be reached: every call reports an error
and no HTTP response. -/
def kratosUnreachable : KratosClient where
  ToSession := fun _ => .error "connection refused" none
  CreateBrowserLoginFlow := fun _ _ _ _ _ => .error "connection refused" none
  UpdateLoginFlow := fun _ _ _ => .error "connection refused" none

/-- An Authorization Service whose calls succeed. -/
def hydraSample : HydraClient where
  AcceptLoginRequest := fun _ _ => .ok (some ()) ⟨[], 200, "redirect"⟩
  GetConsentRequest := fun _ =>
    .ok (some ⟨["openid", "email"], ["api"]⟩) ⟨[], 200, "consent"⟩
  AcceptConsentRequest := fun _ _ =>
    .ok (some ⟨"https://client/callback"⟩) ⟨[], 200, "accepted"⟩

/-- A rendering of the marshalled acceptance for the samples. -/
def encodeSample (c : CompletedRequest) : String := "redirect_to=" ++ c.RedirectTo

/-- Scenario B: `?login_challenge=abc` with a session cookie. -/
def requestWithSession : Request :=
  ⟨[("login_challenge", ["abc"])], [⟨"csrf", "t"⟩, ⟨"ory_kratos_session", "s1"⟩], ""⟩

/-- The request `?login_challenge=abc&refresh=true`, no cookie. -/
def requestRefreshTrue : Request :=
  ⟨[("login_challenge", ["abc"]), ("refresh", ["true"])], [], ""⟩

/-- Scenario C: `?consent_challenge=xyz` with a session cookie. -/
def requestConsent : Request :=
  ⟨[("consent_challenge", ["xyz"])], [⟨"ory_kratos_session", "s1"⟩], ""⟩

/-- A login update `?flow=f1` with a JSON body. -/
def requestUpdate : Request := ⟨[("flow", ["f1"])], [⟨"csrf", "t"⟩], "oidc"⟩

/-- A decoder for the sample update body. -/
def decodeSample (_ : String) : UpdateLoginFlowWithOidcMethod := ⟨"oidc", "github"⟩

/-- An upstream response that sets two cookies. -/
def responseTwoCookies : Response := ⟨[("Set-Cookie", ["a=1", "b=2"])], 200, "ok"⟩

/-- Two Self-Service Errors that agree on id, reason and message only. -/
def errorSample : SelfserviceError := ⟨"E1", ⟨500, "Internal", "r", "m"⟩, "t0", "t1"⟩

/-- The second sample error. -/
def errorSampleOther : SelfserviceError := ⟨"E1", ⟨404, "Not Found", "r", "m"⟩, "t2", "t3"⟩

/-! ## Cookie serialisation -/

/-- Filling the slice index by index from position `pre.length` on writes the
items of the remaining cookies after the part already filled. -/
theorem fill_from (cs : List Cookie) (pre : List String) :
    (cs.enumFrom pre.length).foldl
        (fun ret ic => ret.set ic.1 (Sprintf ic.2.Name ic.2.Value))
        (pre ++ List.replicate cs.length "")
      = pre ++ cs.map cookieItem := by
  induction cs generalizing pre with
  | nil => simp
  | cons c cs ih =>
    have hset : (pre ++ List.replicate (cs.length + 1) "").set pre.length
          (Sprintf c.Name c.Value)
        = (pre ++ [cookieItem c]) ++ List.replicate cs.length "" := by
      rw [List.set_append_right _ _ (Nat.le_refl _)]
      simp [List.replicate_succ, Sprintf, cookieItem]
    have hlen : pre.length + 1 = (pre ++ [cookieItem c]).length := by simp
    rw [List.enumFrom_cons, List.foldl_cons, List.length_cons]
    simp only []
    rw [hset, hlen, ih (pre ++ [cookieItem c])]
    simp

/-- The slice that `cookiesToString` joins holds the items of the cookies in
the order of the cookies. -/
theorem fill_eq_map (cookies : List Cookie) :
    cookies.enum.foldl (fun ret ic => ret.set ic.1 (Sprintf ic.2.Name ic.2.Value))
        (List.replicate cookies.length "")
      = cookies.map cookieItem := by
  have h := fill_from cookies []
  simpa [List.enum] using h

/-- The loop of `strings.Join` started on `p ++ x` yields `p` followed by the
loop started on `x`. -/
theorem join_loop_append (sep p x : String) (rest : List String) :
    rest.foldl (fun b s => b ++ sep ++ s) (p ++ x)
      = p ++ rest.foldl (fun b s => b ++ sep ++ s) x := by
  induction rest generalizing x with
  | nil => simp
  | cons a rest ih =>
    simp only [List.foldl_cons]
    rw [String.append_assoc p x sep, String.append_assoc p (x ++ sep) a, ih]

/-- The accumulating loop of the library's `String.intercalate` is the loop of
`strings.Join`. -/
theorem intercalate_go_eq (sep acc : String) (rest : List String) :
    String.intercalate.go acc sep rest = rest.foldl (fun b s => b ++ sep ++ s) acc := by
  induction rest generalizing acc with
  | nil => simp [String.intercalate.go]
  | cons a rest ih => simp [String.intercalate.go, ih]

/-- The function `strings.Join` computes the library's `String.intercalate`. -/
theorem Join_eq_intercalate (elems : List String) (sep : String) :
    Join elems sep = sep.intercalate elems := by
  match elems with
  | [] => simp [Join, String.intercalate]
  | [e] => simp [Join, String.intercalate, String.intercalate.go]
  | e :: e2 :: rest => simp [Join, String.intercalate, intercalate_go_eq]

/-- Joining at least two elements puts the first, the separator, and the join
of the others. -/
theorem Join_cons_cons (a b : String) (rest : List String) (sep : String) :
    Join (a :: b :: rest) sep = a ++ sep ++ Join (b :: rest) sep := by
  have h : Join (b :: rest) sep = rest.foldl (fun x s => x ++ sep ++ s) b := by
    cases rest <;> simp [Join]
  rw [h]
  simp only [Join, List.foldl_cons]
  rw [join_loop_append sep (a ++ sep) b rest]

/-- C10: for every list of cookies, `cookiesToString` is the items `name=value`
of the cookies, one per cookie and in the order of the list, joined by `"; "`:
the empty string for no cookie, the bare item for one cookie, and for a longer
list the first item, the separator, and the serialisation of the rest, so that
no separator leads or trails. -/
theorem cookiesToString_joins_items (cookies : List Cookie) :
    cookiesToString cookies = "; ".intercalate (cookies.map cookieItem)
    ∧ (cookies.map cookieItem).length = cookies.length
    ∧ cookiesToString [] = ""
    ∧ (∀ c : Cookie, cookiesToString [c] = c.Name ++ "=" ++ c.Value)
    ∧ (∀ (c d : Cookie) (rest : List Cookie),
        cookiesToString (c :: d :: rest)
          = c.Name ++ "=" ++ c.Value ++ "; " ++ cookiesToString (d :: rest)) := by
  have hmap : ∀ cs : List Cookie, cookiesToString cs = Join (cs.map cookieItem) "; " := by
    intro cs
    simp only [cookiesToString]
    rw [fill_eq_map]
  refine ⟨?_, by simp, ?_, ?_, ?_⟩
  · rw [hmap, Join_eq_intercalate]
  · rw [hmap]; rfl
  · intro c; rw [hmap]; rfl
  · intro c d rest
    rw [hmap, hmap]
    simp only [List.map_cons]
    rw [Join_cons_cons]
    rfl


/-! ## The response relay -/

/-- The headers after `writeResponse` come from the header loop alone, whether
or not `WriteHeader` accepts the status. -/
theorem writeResponse_Header (canon : String → String) (w : ResponseWriter) (r : Response) :
    (writeResponse canon w r).1.Header
      = r.Header.foldl
          (fun h kvs => kvs.2.foldl (fun h v => Header.Set canon h kvs.1 v) h) w.Header := by
  simp only [writeResponse, ResponseWriter.WriteHeader]
  cases w.Code with
  | some c => simp [ResponseWriter.Write]
  | none =>
    by_cases hr : r.StatusCode < 100 ∨ r.StatusCode > 999
    · simp [hr]
    · simp [hr, ResponseWriter.Write]

/-- On a writer without status and for a status code from 100 to 999,
`writeResponse` returns, the status is the upstream status, and the body is the
body before followed by the upstream body. -/
theorem writeResponse_valid (canon : String → String) (w : ResponseWriter) (r : Response)
    (hw : w.Code = none) (hlo : 100 ≤ r.StatusCode) (hhi : r.StatusCode ≤ 999) :
    (writeResponse canon w r).2 = Exit.returned
    ∧ (writeResponse canon w r).1.Code = some r.StatusCode
    ∧ (writeResponse canon w r).1.Body = w.Body ++ r.Body := by
  have hr : ¬ (r.StatusCode < 100 ∨ r.StatusCode > 999) := by omega
  simp [writeResponse, ResponseWriter.WriteHeader, ResponseWriter.Write, hw, hr]

/-- On a writer without status and for a status code below 100 or above 999,
`writeResponse` stops in the panic of `WriteHeader`: no status and no body are
written. -/
theorem writeResponse_invalid (canon : String → String) (w : ResponseWriter) (r : Response)
    (hw : w.Code = none) (hr : r.StatusCode < 100 ∨ r.StatusCode > 999) :
    (writeResponse canon w r).2 = Exit.panicked
    ∧ (writeResponse canon w r).1.Code = none
    ∧ (writeResponse canon w r).1.Body = w.Body := by
  simp [writeResponse, ResponseWriter.WriteHeader, hw, hr]

/-- The request has no cookie of a name exactly when `r.Cookie` finds none. -/
theorem Cookie_eq_none_iff (r : Request) (name : String) :
    r.Cookie name = none ↔ ∀ c ∈ r.Cookies, c.Name ≠ name := by
  simp [Request.Cookie]

/-! ## Login initiation -/

/-- C1: when the request carries an `ory_kratos_session` cookie and the session
lookup succeeds with a session of identity id `i`, the handler issues the
session lookup and then one login-acceptance call whose subject is `i` and
whose login challenge is the request's `login_challenge` query value; it issues
no flow-creation call and exactly one login-acceptance call. -/
theorem handleCreateFlow_session_accepts_login (canon : String → String)
    (kratos : KratosClient) (hydra : HydraClient) (w : ResponseWriter) (r : Request)
    (session : Session) (sresp : Response) (i : String)
    (hcookie : ∃ c ∈ r.Cookies, c.Name = "ory_kratos_session")
    (hsession : kratos.ToSession (cookiesToString r.Cookies) = .ok (some session) sresp)
    (hid : session.Identity.Id = i) :
    (handleCreateFlow canon kratos hydra w r).calls
        = [Call.ToSession (cookiesToString r.Cookies),
           Call.AcceptLoginRequest (r.Query.Get "login_challenge") ⟨i⟩]
    ∧ (handleCreateFlow canon kratos hydra w r).calls.countP Call.isCreateBrowserLoginFlow = 0
    ∧ (handleCreateFlow canon kratos hydra w r).calls.countP Call.isAcceptLoginRequest = 1 := by
  have hcalls : (handleCreateFlow canon kratos hydra w r).calls
        = [Call.ToSession (cookiesToString r.Cookies),
           Call.AcceptLoginRequest (r.Query.Get "login_challenge") ⟨i⟩] := by
    cases hc : r.Cookie "ory_kratos_session" with
    | none =>
      obtain ⟨c, hmem, hname⟩ := hcookie
      exact absurd hname ((Cookie_eq_none_iff r _).1 hc c hmem)
    | some c =>
      subst hid
      simp only [handleCreateFlow, hc, hsession, NewAcceptLoginRequest]
      cases hydra.AcceptLoginRequest (r.Query.Get "login_challenge")
        ⟨session.Identity.Id⟩ <;> rfl
  rw [hcalls]
  exact ⟨rfl, rfl, rfl⟩

/-- Scenario B as an instance of C1. -/
theorem handleCreateFlow_session_accepts_login_witness :
    (∃ c ∈ requestWithSession.Cookies, c.Name = "ory_kratos_session")
    ∧ (handleCreateFlow id kratosSample hydraSample ResponseWriter.fresh requestWithSession).calls
        = [Call.ToSession (cookiesToString requestWithSession.Cookies),
           Call.AcceptLoginRequest (requestWithSession.Query.Get "login_challenge") ⟨"user-1"⟩] :=
  ⟨⟨⟨"ory_kratos_session", "s1"⟩, by decide, rfl⟩,
   (handleCreateFlow_session_accepts_login id kratosSample hydraSample ResponseWriter.fresh
      requestWithSession ⟨⟨"user-1"⟩⟩ ⟨[], 200, "session"⟩ "user-1"
      ⟨⟨"ory_kratos_session", "s1"⟩, by decide, rfl⟩ rfl rfl).1⟩

/-- When the session lookup reports no error and returns a nil session, the
handler stops in a panic on `session.Identity.Id`, after the lookup and before
any other call, and writes nothing. -/
theorem handleCreateFlow_nil_session_panics (canon : String → String)
    (kratos : KratosClient) (hydra : HydraClient) (w : ResponseWriter) (r : Request)
    (c : Cookie) (sresp : Response)
    (hc : r.Cookie "ory_kratos_session" = some c)
    (hsession : kratos.ToSession (cookiesToString r.Cookies) = .ok none sresp) :
    handleCreateFlow canon kratos hydra w r
      = ⟨[Call.ToSession (cookiesToString r.Cookies)], w, Exit.panicked⟩ := by
  simp only [handleCreateFlow, hc, hsession]

/-- The refresh value computed from a parse result is `false` whatever the
`refresh` query parameter is. -/
theorem refresh_value_false (str : String) :
    (if (ParseBool str).2 = none then false else (ParseBool str).1) = false := by
  unfold ParseBool
  split_ifs <;> simp_all

/-- Without a session cookie, the flow creation the handler issues carries the
refresh value `false`, whatever the `refresh` query parameter is. -/
theorem handleCreateFlow_refresh_false (canon : String → String) (kratos : KratosClient)
    (hydra : HydraClient) (w : ResponseWriter) (r : Request)
    (hno : ∀ c ∈ r.Cookies, c.Name ≠ "ory_kratos_session") :
    (handleCreateFlow canon kratos hydra w r).calls
      = [Call.CreateBrowserLoginFlow (r.Query.Get "aal") (r.Query.Get "return_to")
          (r.Query.Get "login_challenge") false (cookiesToString r.Cookies)] := by
  have hc : r.Cookie "ory_kratos_session" = none := (Cookie_eq_none_iff r _).2 hno
  simp only [handleCreateFlow, hc, refresh_value_false]
  split <;> rfl

/-- C9: on the request `?login_challenge=abc&refresh=true` without cookies the
`refresh` parameter parses to `true` without error, and the one call the handler
issues is a flow creation whose refresh value is `false`. -/
theorem handleCreateFlow_refresh_true_passes_false (canon : String → String)
    (kratos : KratosClient) (hydra : HydraClient) :
    requestRefreshTrue.Cookie "ory_kratos_session" = none
    ∧ ParseBool (requestRefreshTrue.Query.Get "refresh") = (true, none)
    ∧ (handleCreateFlow canon kratos hydra ResponseWriter.fresh requestRefreshTrue).calls
        = [Call.CreateBrowserLoginFlow "" "" "abc" false ""] := by
  refine ⟨by decide, by decide, ?_⟩
  have hc : requestRefreshTrue.Cookie "ory_kratos_session" = none := by decide
  have hcalls : (handleCreateFlow canon kratos hydra ResponseWriter.fresh requestRefreshTrue).calls
      = [Call.CreateBrowserLoginFlow (requestRefreshTrue.Query.Get "aal")
          (requestRefreshTrue.Query.Get "return_to")
          (requestRefreshTrue.Query.Get "login_challenge")
          (if (ParseBool (requestRefreshTrue.Query.Get "refresh")).2 = none then false
            else (ParseBool (requestRefreshTrue.Query.Get "refresh")).1)
          (cookiesToString requestRefreshTrue.Cookies)] := by
    simp only [handleCreateFlow, hc]
    split <;> rfl
  rw [hcalls]
  decide

/-- Without a session cookie, when the flow creation succeeds with a status
code below 100 or above 999, the handler stops in the panic of `WriteHeader`
and neither a status nor a body is written. -/
theorem handleCreateFlow_invalid_status_panics (canon : String → String)
    (kratos : KratosClient) (hydra : HydraClient) (r : Request) (v : Option Unit)
    (resp : Response)
    (hno : ∀ c ∈ r.Cookies, c.Name ≠ "ory_kratos_session")
    (hok : kratos.CreateBrowserLoginFlow (r.Query.Get "aal") (r.Query.Get "return_to")
        (r.Query.Get "login_challenge") false (cookiesToString r.Cookies) = .ok v resp)
    (hr : resp.StatusCode < 100 ∨ resp.StatusCode > 999) :
    (handleCreateFlow canon kratos hydra ResponseWriter.fresh r).exit = Exit.panicked
    ∧ (handleCreateFlow canon kratos hydra ResponseWriter.fresh r).w.Code = none
    ∧ (handleCreateFlow canon kratos hydra ResponseWriter.fresh r).w.Body = "" := by
  have hc : r.Cookie "ory_kratos_session" = none := (Cookie_eq_none_iff r _).2 hno
  have hinv := writeResponse_invalid canon ResponseWriter.fresh resp rfl hr
  have hrun : handleCreateFlow canon kratos hydra ResponseWriter.fresh r
      = ⟨[Call.CreateBrowserLoginFlow (r.Query.Get "aal") (r.Query.Get "return_to")
            (r.Query.Get "login_challenge") false (cookiesToString r.Cookies)],
          (writeResponse canon ResponseWriter.fresh resp).1,
          (writeResponse canon ResponseWriter.fresh resp).2⟩ := by
    simp only [handleCreateFlow, hc, refresh_value_false, hok]
  rw [hrun]
  exact hinv

/-! ## Login update -/

/-- C6: whenever the flow-update call comes back with an HTTP response of
status 422, with or without an error, the handler returns having written
status 422 and the upstream body, unchanged, to a fresh response. -/
theorem handleUpdateFlow_relays_422 (canon : String → String)
    (decode : String → UpdateLoginFlowWithOidcMethod) (kratos : KratosClient) (r : Request)
    (resp : Response)
    (hresp : (kratos.UpdateLoginFlow (r.Query.Get "flow") (parseBody decode r)
        (cookiesToString r.Cookies)).resp = some resp)
    (h422 : resp.StatusCode = 422) :
    (handleUpdateFlow canon decode kratos ResponseWriter.fresh r).exit = Exit.returned
    ∧ (handleUpdateFlow canon decode kratos ResponseWriter.fresh r).w.Code = some 422
    ∧ (handleUpdateFlow canon decode kratos ResponseWriter.fresh r).w.Body = resp.Body := by
  have hrun : handleUpdateFlow canon decode kratos ResponseWriter.fresh r
      = ⟨[Call.UpdateLoginFlow (r.Query.Get "flow") (parseBody decode r)
            (cookiesToString r.Cookies)],
          (writeResponse canon ResponseWriter.fresh resp).1,
          (writeResponse canon ResponseWriter.fresh resp).2⟩ := by
    cases hres : kratos.UpdateLoginFlow (r.Query.Get "flow") (parseBody decode r)
        (cookiesToString r.Cookies) with
    | ok v resp0 =>
      rw [hres] at hresp
      simp only [Result.resp, Option.some.injEq] at hresp
      subst hresp
      simp only [handleUpdateFlow, hres]
    | error e oresp =>
      rw [hres] at hresp
      simp only [Result.resp] at hresp
      subst hresp
      simp [handleUpdateFlow, hres, h422]
  have hvalid := writeResponse_valid canon ResponseWriter.fresh resp rfl
    (by rw [h422]; decide) (by rw [h422]; decide)
  rw [hrun]
  refine ⟨hvalid.1, ?_, ?_⟩
  · rw [← h422]; exact hvalid.2.1
  · show (writeResponse canon ResponseWriter.fresh resp).1.Body = resp.Body
    rw [hvalid.2.2]; exact String.empty_append _

/-- An instance of C6: an error together with a 422 response. -/
theorem handleUpdateFlow_relays_422_witness :
    (kratosSample.UpdateLoginFlow (requestUpdate.Query.Get "flow")
        (parseBody decodeSample requestUpdate) (cookiesToString requestUpdate.Cookies)).err
      = some "422 Unprocessable Entity"
    ∧ (handleUpdateFlow id decodeSample kratosSample ResponseWriter.fresh requestUpdate).w.Code
      = some 422
    ∧ (handleUpdateFlow id decodeSample kratosSample ResponseWriter.fresh requestUpdate).w.Body
      = "validation" :=
  ⟨rfl, (handleUpdateFlow_relays_422 id decodeSample kratosSample requestUpdate
      ⟨[], 422, "validation"⟩ rfl rfl).2⟩

/-- When the flow-update call reports an error together with an HTTP response
whose status is not 422, the handler returns and leaves the writer as it was. -/
theorem handleUpdateFlow_error_with_response (canon : String → String)
    (decode : String → UpdateLoginFlowWithOidcMethod) (kratos : KratosClient)
    (w : ResponseWriter) (r : Request) (e : String) (resp : Response)
    (hres : kratos.UpdateLoginFlow (r.Query.Get "flow") (parseBody decode r)
        (cookiesToString r.Cookies) = .error e (some resp))
    (hne : resp.StatusCode ≠ 422) :
    (handleUpdateFlow canon decode kratos w r).exit = Exit.returned
    ∧ (handleUpdateFlow canon decode kratos w r).w = w := by
  unfold handleUpdateFlow
  simp [hres, hne]

/-- C7: when the Identity Service cannot be reached, the flow-update call
reports an error and no HTTP response, and the handler does not return: it
stops in a runtime panic on reading the status of the nil response. Nothing is
written. -/
theorem handleUpdateFlow_no_response_panics (canon : String → String) :
    (kratosUnreachable.UpdateLoginFlow (requestUpdate.Query.Get "flow")
        (parseBody decodeSample requestUpdate) (cookiesToString requestUpdate.Cookies))
      = .error "connection refused" none
    ∧ (handleUpdateFlow canon decodeSample kratosUnreachable ResponseWriter.fresh
        requestUpdate).exit = Exit.panicked
    ∧ (handleUpdateFlow canon decodeSample kratosUnreachable ResponseWriter.fresh
        requestUpdate).w = ResponseWriter.fresh :=
  ⟨rfl, rfl, rfl⟩

/-! ## Relayed headers -/

/-- Setting the values of one key one after the other keeps the header map
empty or with the single entry of that key. -/
theorem Set_loop_single (canon : String → String) (k : String) (vs : List String) (h : Header)
    (hh : h = [] ∨ ∃ x, h = [(canon k, x)]) :
    vs.foldl (fun h v => Header.Set canon h k v) h = []
    ∨ ∃ x, vs.foldl (fun h v => Header.Set canon h k v) h = [(canon k, x)] := by
  induction vs generalizing h with
  | nil => simpa using hh
  | cons v vs ih =>
    rw [List.foldl_cons]
    apply ih
    right
    rcases hh with hh | ⟨x, hh⟩ <;> subst hh <;> exact ⟨[v], by simp [Header.Set, Header.assign]⟩

/-- Relaying a response with one header key onto a response without headers
leaves, under that key, the last of its values and no other. -/
theorem writeResponse_one_key_last_value (canon : String → String) (k : String)
    (vs : List String) (v : String) (status : Int) (body : String) :
    (writeResponse canon ResponseWriter.fresh ⟨[(k, vs ++ [v])], status, body⟩).1.Header
      = [(canon k, [v])] := by
  have hhdr : (writeResponse canon ResponseWriter.fresh ⟨[(k, vs ++ [v])], status, body⟩).1.Header
      = Header.Set canon (vs.foldl (fun h v => Header.Set canon h k v) []) k v := by
    rw [writeResponse_Header]
    simp [ResponseWriter.fresh]
  rw [hhdr]
  rcases Set_loop_single canon k vs [] (Or.inl rfl) with h0 | ⟨x, h0⟩ <;> rw [h0] <;>
    simp [Header.Set, Header.assign]

/-- C8: relaying a response whose `Set-Cookie` header has the two values
`a=1` and `b=2` onto a response without headers leaves one `Set-Cookie` value,
the last one: the outbound headers differ from the upstream headers. -/
theorem writeResponse_keeps_last_value_only (canon : String → String) :
    (writeResponse canon ResponseWriter.fresh responseTwoCookies).1.Header
        = [(canon "Set-Cookie", ["b=2"])]
    ∧ responseTwoCookies.Header.Values "Set-Cookie" = ["a=1", "b=2"]
    ∧ (writeResponse canon ResponseWriter.fresh responseTwoCookies).1.Header.Values
        (canon "Set-Cookie") = ["b=2"]
    ∧ (writeResponse canon ResponseWriter.fresh responseTwoCookies).1.Header
        ≠ responseTwoCookies.Header
    ∧ (writeResponse canon ResponseWriter.fresh responseTwoCookies).2 = Exit.returned := by
  have h : (writeResponse canon ResponseWriter.fresh responseTwoCookies).1.Header
      = [(canon "Set-Cookie", ["b=2"])] := by
    rw [writeResponse_Header]
    simp [ResponseWriter.fresh, responseTwoCookies, Header.Set, Header.assign]
  refine ⟨h, by decide, ?_, ?_, ?_⟩
  · rw [h]; simp [Header.Values]
  · rw [h]; simp [responseTwoCookies]
  · exact (writeResponse_valid canon ResponseWriter.fresh responseTwoCookies rfl
      (by decide) (by decide)).1


/-! ## Consent -/

/-- C3: when the session lookup succeeds and the consent fetch returns a
Consent Request, whatever its lists of scopes and audiences, the handler issues
one accept-consent call, on the request's `consent_challenge`, whose payload has
`GrantScope` equal to the fetched `RequestedScope` and
`GrantAccessTokenAudience` equal to the fetched `RequestedAccessTokenAudience`
as lists, element for element and in the same order. -/
theorem handleConsent_grants_what_was_requested (encode : CompletedRequest → String)
    (kratos : KratosClient) (hydra : HydraClient)
    (w : ResponseWriter) (r : Request) (session : Session) (sresp : Response)
    (consent : ConsentRequest) (cresp : Response)
    (hs : kratos.ToSession (cookiesToString r.Cookies) = .ok (some session) sresp)
    (hc : hydra.GetConsentRequest (r.Query.Get "consent_challenge")
      = .ok (some consent) cresp) :
    ∃ body : AcceptConsentRequest,
      (handleConsent encode kratos hydra w r).calls
          = [Call.ToSession (cookiesToString r.Cookies),
             Call.GetConsentRequest (r.Query.Get "consent_challenge"),
             Call.AcceptConsentRequest (r.Query.Get "consent_challenge") body]
      ∧ body.GrantScope = consent.RequestedScope
      ∧ body.GrantAccessTokenAudience = consent.RequestedAccessTokenAudience := by
  refine ⟨(NewAcceptConsentRequest.SetGrantScope consent.RequestedScope).SetGrantAccessTokenAudience
      consent.RequestedAccessTokenAudience, ?_, rfl, rfl⟩
  simp only [handleConsent, hs, hc]
  split
  · rfl
  · rfl
  · split
    · rfl
    · split <;> rfl

/-- Scenario C as an instance of C3: the scopes `openid`, `email` are granted
in that order. -/
theorem handleConsent_grants_what_was_requested_witness :
    ∃ body : AcceptConsentRequest,
      (handleConsent encodeSample kratosSample hydraSample ResponseWriter.fresh
          requestConsent).calls
          = [Call.ToSession (cookiesToString requestConsent.Cookies),
             Call.GetConsentRequest (requestConsent.Query.Get "consent_challenge"),
             Call.AcceptConsentRequest (requestConsent.Query.Get "consent_challenge") body]
      ∧ body.GrantScope = ["openid", "email"]
      ∧ body.GrantAccessTokenAudience = ["api"] :=
  handleConsent_grants_what_was_requested encodeSample kratosSample hydraSample
    ResponseWriter.fresh requestConsent ⟨⟨"user-1"⟩⟩ ⟨[], 200, "session"⟩
    ⟨["openid", "email"], ["api"]⟩ ⟨[], 200, "consent"⟩ rfl rfl

/-- When the session lookup reports no error and returns a nil session, the
consent handler stops in a panic on `session.Identity.Traits`, before the
consent fetch, and writes nothing. -/
theorem handleConsent_nil_session_panics (encode : CompletedRequest → String)
    (kratos : KratosClient) (hydra : HydraClient) (w : ResponseWriter) (r : Request)
    (sresp : Response)
    (hs : kratos.ToSession (cookiesToString r.Cookies) = .ok none sresp) :
    handleConsent encode kratos hydra w r
      = ⟨[Call.ToSession (cookiesToString r.Cookies)], w, Exit.panicked⟩ := by
  simp only [handleConsent, hs]

/-- When the consent fetch reports no error and returns a nil Consent Request,
the handler stops in a panic on `consent.RequestedScope`, before the
accept-consent call, and writes nothing. -/
theorem handleConsent_nil_consent_panics (encode : CompletedRequest → String)
    (kratos : KratosClient) (hydra : HydraClient) (w : ResponseWriter) (r : Request)
    (session : Session) (sresp cresp : Response)
    (hs : kratos.ToSession (cookiesToString r.Cookies) = .ok (some session) sresp)
    (hc : hydra.GetConsentRequest (r.Query.Get "consent_challenge") = .ok none cresp) :
    handleConsent encode kratos hydra w r
      = ⟨[Call.ToSession (cookiesToString r.Cookies),
          Call.GetConsentRequest (r.Query.Get "consent_challenge")], w, Exit.panicked⟩ := by
  simp only [handleConsent, hs, hc]

/-- When the accept-consent call reports no error and returns a nil value, the
handler stops in a panic on `accept.MarshalJSON()`, after the three calls, and
writes nothing. -/
theorem handleConsent_nil_accept_panics (encode : CompletedRequest → String)
    (kratos : KratosClient) (hydra : HydraClient) (w : ResponseWriter) (r : Request)
    (session : Session) (consent : ConsentRequest) (sresp cresp aresp : Response)
    (hs : kratos.ToSession (cookiesToString r.Cookies) = .ok (some session) sresp)
    (hc : hydra.GetConsentRequest (r.Query.Get "consent_challenge")
      = .ok (some consent) cresp)
    (ha : hydra.AcceptConsentRequest (r.Query.Get "consent_challenge")
        ⟨consent.RequestedScope, consent.RequestedAccessTokenAudience⟩ = .ok none aresp) :
    (handleConsent encode kratos hydra w r).exit = Exit.panicked
    ∧ (handleConsent encode kratos hydra w r).w = w := by
  simp [handleConsent, hs, hc, ha, NewAcceptConsentRequest,
    AcceptConsentRequest.SetGrantScope, AcceptConsentRequest.SetGrantAccessTokenAudience]

/-- C5: for every Self-Service Error `s`, `newSelfserviceErrorProxy s` is the
External Error with id `s.Id`, reason `s.ServerError.Reason` and message
`s.ServerError.Message`; an External Error is its three fields and nothing
else; and any Self-Service Error that agrees with `s` on id, reason and message
gives the same External Error, whatever its code, status and timestamps. -/
theorem newSelfserviceErrorProxy_projects (s : SelfserviceError) :
    newSelfserviceErrorProxy s = ⟨s.Id, s.ServerError.Reason, s.ServerError.Message⟩
    ∧ (∀ p q : SelfserviceErrorProxy,
        p.Id = q.Id → p.Reason = q.Reason → p.Message = q.Message → p = q)
    ∧ (∀ t : SelfserviceError,
        t.Id = s.Id → t.ServerError.Reason = s.ServerError.Reason →
        t.ServerError.Message = s.ServerError.Message →
        newSelfserviceErrorProxy t = newSelfserviceErrorProxy s) := by
  refine ⟨rfl, ?_, ?_⟩
  · intro p q h1 h2 h3
    cases p; cases q; simp_all
  · intro t h1 h2 h3
    simp [newSelfserviceErrorProxy, h1, h2, h3]

/-- Scenario D as an instance of C5, with a second error that differs in code,
status and timestamps only. -/
theorem newSelfserviceErrorProxy_projects_witness :
    newSelfserviceErrorProxy errorSample = ⟨"E1", "r", "m"⟩
    ∧ errorSampleOther.ServerError.Code ≠ errorSample.ServerError.Code
    ∧ newSelfserviceErrorProxy errorSampleOther = newSelfserviceErrorProxy errorSample :=
  ⟨(newSelfserviceErrorProxy_projects errorSample).1, by decide,
   (newSelfserviceErrorProxy_projects errorSample).2.2 errorSampleOther rfl rfl rfl⟩

end LoginUI
